import Mathlib

/-!
# Verification of the zerophish rule-based URL threat-scoring engine

A shallow embedding of the scoring/classification logic of the repository's
analysis variants, together with theorems checking the specification's claims
against it.

Hostnames, paths and URLs are modelled as `List Char` (`Str`), so that the
JavaScript string primitives used by the source (`includes`, `endsWith`,
`split`, `indexOf`, anchored and unanchored regular-expression tests) can be
given executable, kernel-reducible models.
-/

/-- Strings of the analysed URLs, modelled as lists of characters. -/
abbrev Str := List Char

/-- `listHasPfx s pat` is true when `pat` is a prefix of `s`
(JS `String.prototype.startsWith`). -/
def listHasPfx : Str → Str → Bool
  | _, [] => true
  | [], _ :: _ => false
  | a :: as, b :: bs => a == b && listHasPfx as bs

/-- `strHas s pat` is true when `pat` occurs as a contiguous substring of `s`
(JS `String.prototype.includes`). -/
def strHas : Str → Str → Bool
  | s, pat =>
    if listHasPfx s pat then true
    else match s with
      | [] => false
      | _ :: as => strHas as pat

/-- `strEnds s pat` is true when `pat` is a suffix of `s`
(JS `String.prototype.endsWith`). -/
def strEnds (s pat : Str) : Bool :=
  listHasPfx s.reverse pat.reverse

/-- JS `String.prototype.toLowerCase` (ASCII is all the source needs). -/
def toLowerL (s : Str) : Str := s.map Char.toLower

/-- ASCII decimal digit. -/
def isDigitCh (c : Char) : Bool := '0' ≤ c && c ≤ '9'

/-- Lower-case hexadecimal digit, the `[a-f0-9]` character class. -/
def isHexCh (c : Char) : Bool := isDigitCh c || ('a' ≤ c && c ≤ 'f')

/-- JS `String.prototype.split('.')`. -/
def splitOnDot : Str → List Str
  | [] => [[]]
  | c :: rest =>
    let ps := splitOnDot rest
    if c == '.' then [] :: ps
    else match ps with
      | [] => [[c]]
      | p :: pr => (c :: p) :: pr

/-- JS `String.prototype.indexOf` for a single character: the first index of
`c` in `s`, or `-1` when absent. -/
def jsIndexOfCh (s : Str) (c : Char) : Int :=
  match s with
  | [] => -1
  | a :: as =>
    if a == c then 0
    else
      let r := jsIndexOfCh as c
      if r < 0 then -1 else r + 1

/-- Anchored test of `/^(?:[0-9]{1,3}\.){3}[0-9]{1,3}$/`: the host is a dotted
quad of four groups of one to three digits. -/
def isIPv4 (s : Str) : Bool :=
  let ps := splitOnDot s
  ps.length == 4 && ps.all (fun p => decide (1 ≤ p.length) && decide (p.length ≤ 3) && p.all isDigitCh)

/-- Length of the maximal run of hex digits at the head of `s`. -/
def hexRunLen : Str → Nat
  | [] => 0
  | c :: rest => if isHexCh c then hexRunLen rest + 1 else 0

/-- Length of the maximal run of decimal digits at the head of `s`. -/
def digitRunLen : Str → Nat
  | [] => 0
  | c :: rest => if isDigitCh c then digitRunLen rest + 1 else 0

/-- Match of `[a-f0-9]{8,}-[a-f0-9]{4,}` starting exactly at the head of `s`:
since `-` is not a hex digit, a successful backtracking match consumes the
whole maximal hex run, which must have length at least 8, be followed by `-`,
and then by at least 4 hex digits. -/
def hexDashAt (s : Str) : Bool :=
  let n := hexRunLen s
  decide (8 ≤ n) &&
    (match s.drop n with
     | '-' :: rest => decide (4 ≤ hexRunLen rest)
     | _ => false)

/-- Unanchored search for `[a-f0-9]{8,}-[a-f0-9]{4,}`. -/
def hasHexDash : Str → Bool
  | [] => false
  | s@(_ :: rest) => hexDashAt s || hasHexDash rest

/-- Unanchored search for `tok` immediately followed by at least one digit
(the `random[0-9]+` and `temp[0-9]+` alternatives). -/
def hasTokenDigit (tok : Str) : Str → Bool
  | [] => false
  | s@(_ :: rest) =>
    (listHasPfx s tok &&
      (match s.drop tok.length with
       | c :: _ => isDigitCh c
       | [] => false)) || hasTokenDigit tok rest

/-- Unanchored search for `[0-9]{8,}`. -/
def hasDigitRun8 : Str → Bool
  | [] => false
  | s@(_ :: rest) => decide (8 ≤ digitRunLen s) || hasDigitRun8 rest

/-- Remainders of `s` after consuming `[0-9]{1,3}\.` with each of the three
possible digit counts. -/
def digitsDotRem (s : Str) : List Str :=
  [1, 2, 3].filterMap fun j =>
    if (s.take j).length == j && (s.take j).all isDigitCh then
      match s.drop j with
      | '.' :: r => some r
      | _ => none
    else none

/-- Match of `[0-9]{1,3}\.[0-9]{1,3}\.[0-9]{1,3}\.[0-9]{1,3}` starting at the
head of `s`; the final `[0-9]{1,3}` succeeds as soon as one digit is present. -/
def quadAt (s : Str) : Bool :=
  (digitsDotRem s).any fun r1 =>
    (digitsDotRem r1).any fun r2 =>
      (digitsDotRem r2).any fun r3 =>
        match r3 with
        | c :: _ => isDigitCh c
        | [] => false

/-- Unanchored search for a dotted-quad substring. -/
def hasDottedQuad : Str → Bool
  | [] => false
  | s@(_ :: rest) => quadAt s || hasDottedQuad rest

/-- JS `String.prototype.trim` (ASCII whitespace). -/
def jsTrim (s : Str) : Str :=
  (s.dropWhile (fun c => c == ' ' || c == '\t' || c == '\n' || c == '\r')).reverse.dropWhile
    (fun c => c == ' ' || c == '\t' || c == '\n' || c == '\r') |>.reverse

/-- The scheme-prefixing normalisation shared by `URLAnalyzer.handleSubmit`
and the `performAdvancedAnalysis`/`performLayeredAnalysis` orchestrators:
an input not starting with `http://` or `https://` is prefixed with
`https://`. -/
def normalizeUrl (s : Str) : Str :=
  if listHasPfx s ("http://".toList) || listHasPfx s ("https://".toList) then s
  else "https://".toList ++ s

/-- The parts of the platform `URL` object the engine consults. -/
structure UrlObj where
  protocol : Str
  hostname : Str
  pathname : Str
  deriving DecidableEq, Repr

/-- Model of `new URL(s)` for the http/https URLs the engine handles: the
scheme must be present, the authority runs to the first `/`, `?` or `#`
(with an optional `:port` stripped), the path runs to the first `?` or `#`
and defaults to `/`.  The hostname is lower-cased as the platform does.
Returns `none` (the thrown `TypeError`) when no scheme or host is present. -/
def parseUrl (s : Str) : Option UrlObj :=
  let mk : Str → Str → Option UrlObj := fun proto rest =>
    let auth := rest.takeWhile (fun c => !(c == '/' || c == '?' || c == '#'))
    let host := auth.takeWhile (fun c => !(c == ':'))
    if host.isEmpty then none
    else
      let tail := rest.drop auth.length
      let path := tail.takeWhile (fun c => !(c == '?' || c == '#'))
      some { protocol := proto, hostname := toLowerL host,
             pathname := if path.isEmpty then "/".toList else path }
  if listHasPfx s ("https://".toList) then mk "https:".toList (s.drop 8)
  else if listHasPfx s ("http://".toList) then mk "http:".toList (s.drop 7)
  else none

namespace Advanced

/-! Embedding of `src/components/AdvancedPhishingDetector.tsx`.  Every
`Math.random()`-derived quantity of the source is determinized into an
explicit draw parameter (collected in `DrawsA`), so the analysis becomes a
function of the URL and of the resolution of the simulated signals. -/

/-- Verdict enum of `getAdvancedVerdict`. -/
inductive Verdict where
  | LEGITIMATE
  | SUSPICIOUS
  | CONFIRMED_PHISHING
  deriving DecidableEq, Repr

/-- Threat-level enum of `getAdvancedThreatLevel`. -/
inductive ThreatLevel where
  | HIGH
  | MEDIUM
  | LOW
  deriving DecidableEq, Repr

/-- The fixed tunnel-provider denylist of `analyzeInfrastructure`. -/
def tunnelServices : List Str :=
  ["trycloudflare.com".toList, "ngrok.io".toList, "localtunnel.me".toList,
   "serveo.net".toList, "pagekite.me".toList, "localhost.run".toList,
   "telebit.cloud".toList, "tunnelto.dev".toList, "bore.pub".toList,
   "loca.lt".toList, "zrok.io".toList, "pinggy.io".toList]

structure InfraResult where
  tunnelService : Option Str
  isDynamicDomain : Bool
  findings : List String
  deriving DecidableEq, Repr

/-- Layer 1: `analyzeInfrastructure(urlObj)`; `domain` is the lower-cased
hostname.  The dynamic-domain regex is
`/[a-f0-9]{8,}-[a-f0-9]{4,}|random[0-9]+|temp[0-9]+|[0-9]{8,}/`. -/
def analyzeInfrastructure (domain : Str) : InfraResult :=
  let tunnelService := tunnelServices.find? fun service => strHas domain service
  let isDynamicDomain :=
    (hasHexDash domain || hasTokenDigit "random".toList domain ||
      hasTokenDigit "temp".toList domain || hasDigitRun8 domain) || tunnelService.isSome
  let findings :=
    (match tunnelService with
     | some t => ["🚨 CRITICAL: Tunnel service detected (" ++ String.mk t ++ ")"]
     | none => []) ++
    (if isDynamicDomain then ["⚠️ Dynamic/temporary domain pattern detected"] else []) ++
    (if tunnelService.isNone && !isDynamicDomain then
      ["✅ No infrastructure red flags detected"] else [])
  { tunnelService, isDynamicDomain, findings }

/-- The fixed legitimate-brand list of `analyzeVisuals`. -/
def legitimateBrands : List Str :=
  ["google".toList, "microsoft".toList, "facebook".toList, "amazon".toList,
   "apple".toList, "paypal".toList, "netflix".toList, "dropbox".toList]

structure VisualResult where
  logoImpersonation : Bool
  uiCloning : Bool
  findings : List String
  deriving DecidableEq, Repr

/-- Layer 2: `analyzeVisuals(urlObj)`.  `uiCloningDraw` determinizes the
simulated `Math.random() > 0.7` UI-cloning signal. -/
def analyzeVisuals (domain : Str) (uiCloningDraw : Bool) : VisualResult :=
  let logoImpersonation := legitimateBrands.any fun brand =>
    strHas domain brand && !strEnds domain (brand ++ ".com".toList)
  let uiCloning := uiCloningDraw
  let findings :=
    (if logoImpersonation then ["🎭 CRITICAL: Brand logo impersonation detected"] else []) ++
    (if uiCloning then ["🖼️ Suspicious UI layout matching legitimate services"] else []) ++
    (if !logoImpersonation && !uiCloning then ["✅ No visual impersonation detected"] else [])
  { logoImpersonation, uiCloning, findings }

structure HTMLResult where
  credentialForms : Nat
  obfuscatedJS : Bool
  hiddenFields : Nat
  externalPostTargets : List String
  findings : List String
  deriving DecidableEq, Repr

/-- Layer 3: `analyzeHTML(urlObj)`.  The source draws every quantity from
`Math.random()`; each draw is a parameter here (`credDraw` for the simulated
credential-form count, `hiddenDraw` for the hidden-field count, booleans for
the rest). -/
def analyzeHTML (credDraw : Nat) (obfDraw : Bool) (hiddenDraw : Nat) (extDraw : Bool) :
    HTMLResult :=
  let credentialForms := credDraw
  let obfuscatedJS := obfDraw
  let hiddenFields := hiddenDraw
  let externalPostTargets :=
    if extDraw then ["malicious-collector.net", "data-harvester.com"] else []
  let findings :=
    (if 0 < credentialForms then
      ["🔑 " ++ toString credentialForms ++ " credential input form(s) detected"] else []) ++
    (if obfuscatedJS then ["⚠️ Obfuscated JavaScript code detected"] else []) ++
    (if 3 < hiddenFields then
      ["👁️ " ++ toString hiddenFields ++ " hidden form fields detected"] else []) ++
    (if extDraw then
      ["📡 Form posts to external targets: malicious-collector.net, data-harvester.com"]
     else [])
  { credentialForms, obfuscatedJS, hiddenFields, externalPostTargets,
    findings := if findings.isEmpty then ["✅ No malicious HTML patterns detected"] else findings }

structure BehavioralResult where
  findings : List String
  deriving DecidableEq, Repr

/-- Layer 4: `simulateBehavior(urlObj)`; the three simulated signals are
draw parameters. -/
def simulateBehavior (redirDraw keylogDraw captureDraw : Bool) : BehavioralResult :=
  let findings :=
    (if redirDraw then ["↩️ Dynamic redirects triggered by user interaction"] else []) ++
    (if keylogDraw then ["⌨️ Potential keylogger JavaScript detected"] else []) ++
    (if captureDraw then ["📸 Screen capture JavaScript patterns detected"] else [])
  { findings := if findings.isEmpty then ["✅ No suspicious behavioral patterns detected"] else findings }

structure SandboxResult where
  findings : List String
  deriving DecidableEq, Repr

/-- Layer 5: `executeSandbox(urlObj)`; the three simulated signals are
draw parameters. -/
def executeSandbox (reqDraw miningDraw exploitDraw : Bool) : SandboxResult :=
  let findings :=
    (if reqDraw then ["🌐 Requests to known malicious domains detected"] else []) ++
    (if miningDraw then ["⛏️ Cryptocurrency mining scripts detected"] else []) ++
    (if exploitDraw then ["🐛 Browser exploitation attempts detected"] else [])
  { findings := if findings.isEmpty then ["✅ No malicious sandbox behavior detected"] else findings }

/-- The fixed site list of `checkForMimickedSites`. -/
def legitimateSites : List Str :=
  ["google".toList, "facebook".toList, "amazon".toList, "microsoft".toList,
   "apple".toList, "paypal".toList, "netflix".toList]

/-- `checkForMimickedSites(domain)`: a site token occurring in the host while
the host does not end with `site.com`. -/
def checkForMimickedSites (domain : Str) : Bool :=
  legitimateSites.any fun site =>
    strHas domain site && !strEnds domain (site ++ ".com".toList)

/-- The fixed suspicious-keyword list of `checkSuspiciousKeywords`. -/
def suspiciousKeywords : List Str :=
  ["verify".toList, "secure".toList, "account".toList, "update".toList,
   "confirm".toList, "login".toList]

/-- Number of suspicious keywords occurring in the lower-cased full URL. -/
def countSuspiciousKeywords (url : Str) : Nat :=
  (suspiciousKeywords.filter fun keyword => strHas url keyword).length

/-- `checkSuspiciousKeywords(url)`: at least 2 keyword matches. -/
def checkSuspiciousKeywords (url : Str) : Bool :=
  2 ≤ countSuspiciousKeywords url

/-- The suspicious-TLD denylist of the feature extractor's regex
`/\.(tk|ml|ga|cf|bit|cc|pw|top|click|download|science|work|cricket|accountant|review|country|stream|gq|racing|party|faith|bid|win|date|loan|site|website|online|agency)$/i`. -/
def suspiciousTLDs : List Str :=
  ["tk".toList, "ml".toList, "ga".toList, "cf".toList, "bit".toList, "cc".toList,
   "pw".toList, "top".toList, "click".toList, "download".toList, "science".toList,
   "work".toList, "cricket".toList, "accountant".toList, "review".toList,
   "country".toList, "stream".toList, "gq".toList, "racing".toList, "party".toList,
   "faith".toList, "bid".toList, "win".toList, "date".toList, "loan".toList,
   "site".toList, "website".toList, "online".toList, "agency".toList]

/-- The character class of the `hasSpecialChars` regex, written out by
character codes (it is
`! @ # $ % ^ & * ( ) _ + - = [ ] braces ; apostrophe : double-quote backslash
pipe , . < > / ? ~ backtick`). -/
def specialChars : Str :=
  [33, 64, 35, 36, 37, 94, 38, 42, 40, 41, 95, 43, 45, 61, 91, 93, 123, 125,
   59, 39, 58, 34, 92, 124, 44, 46, 60, 62, 47, 63, 126, 96].map Char.ofNat

structure Features where
  hasIPAddress : Bool
  suspiciousTLD : Bool
  suspiciousDomain : Bool
  hasSubdomains : Bool
  usesHTTPS : Bool
  domainAge : String
  urlLength : Nat
  hasSpecialChars : Bool
  mimicsKnownSites : Bool
  hasRedirect : Bool
  containsSuspiciousKeywords : Bool
  tunnelService : Option Str
  isDynamicDomain : Bool
  credentialForms : Nat
  obfuscatedJS : Bool
  hiddenFields : Nat
  externalPostTargets : List String
  deriving DecidableEq, Repr

/-- The feature-extraction block of `analyzeURL` (the `features` object).
`domainAgeDraw` determinizes `simulateDomainAge()`. -/
def extractFeatures (u : UrlObj) (urlStr : Str) (infra : InfraResult) (html : HTMLResult)
    (domainAgeDraw : String) : Features :=
  let domain := u.hostname
  let path := toLowerL u.pathname
  let fullUrl := toLowerL urlStr
  { hasIPAddress := isIPv4 domain
    suspiciousTLD := suspiciousTLDs.any fun t => strEnds domain ('.' :: t)
    suspiciousDomain := strHas domain "bit.ly".toList || strHas domain "tinyurl".toList ||
      strHas domain "t.co".toList || strHas domain "goo.gl".toList || hasDottedQuad domain
    hasSubdomains := 3 < (splitOnDot domain).length
    usesHTTPS := u.protocol == "https:".toList
    domainAge := domainAgeDraw
    urlLength := urlStr.length
    hasSpecialChars := (path.any fun c => specialChars.contains c) && 1 < path.length
    mimicsKnownSites := checkForMimickedSites domain
    hasRedirect := strHas path "redirect".toList || strHas path "r=".toList ||
      strHas path "url=".toList || strHas path "goto=".toList
    containsSuspiciousKeywords := checkSuspiciousKeywords fullUrl
    tunnelService := infra.tunnelService
    isDynamicDomain := infra.isDynamicDomain
    credentialForms := html.credentialForms
    obfuscatedJS := html.obfuscatedJS
    hiddenFields := html.hiddenFields
    externalPostTargets := html.externalPostTargets }

structure Certificate where
  isValid : Bool
  issuer : String
  expiryDate : String
  trustScore : Nat
  deriving DecidableEq, Repr

/-- The simulated `certificate` object: `certDraw` determinizes
`Math.random() > 0.2`, the issuer/expiry/trust draws the other calls. -/
def mkCertificate (f : Features) (certDraw : Bool) (issuerDraw expiryDraw : String)
    (trustHigh trustLow : Nat) : Certificate :=
  { isValid := !f.hasIPAddress && f.tunnelService.isNone && certDraw
    issuer := if f.usesHTTPS then issuerDraw else "None"
    expiryDate := expiryDraw
    trustScore := if f.usesHTTPS && f.tunnelService.isNone then trustHigh else trustLow }

structure BrandRes where
  suspectedBrand : Option String
  logoSimilarity : Nat
  brandImpersonation : Bool
  uiCloning : Bool
  deriving DecidableEq, Repr

/-- The `brandAnalysis` object. -/
def mkBrandAnalysis (f : Features) (v : VisualResult) (brandDraw : String)
    (simHigh simLow : Nat) : BrandRes :=
  { suspectedBrand := if f.mimicsKnownSites then some brandDraw else none
    logoSimilarity := if f.mimicsKnownSites then simHigh else simLow
    brandImpersonation := f.mimicsKnownSites || v.logoImpersonation
    uiCloning := v.uiCloning }

/-- `calculateAdvancedRiskScore(features, certificate, brandAnalysis, ...)`:
fixed point-additions per triggered rule, capped at 100. -/
def calculateAdvancedRiskScore (f : Features) (c : Certificate) (b : BrandRes) : Nat :=
  min 100
    ((if f.tunnelService.isSome then 45 else 0) +
     (if f.isDynamicDomain then 30 else 0) +
     (if f.hasIPAddress then 35 else 0) +
     (if f.suspiciousTLD then 25 else 0) +
     (if b.brandImpersonation then 40 else 0) +
     (if b.uiCloning then 35 else 0) +
     (if 0 < f.credentialForms then 30 else 0) +
     (if f.obfuscatedJS then 35 else 0) +
     (if 0 < f.externalPostTargets.length then 25 else 0) +
     (if !c.isValid then 25 else 0) +
     (if !f.usesHTTPS then 20 else 0) +
     (if f.mimicsKnownSites then 30 else 0))

/-- `getAdvancedVerdict(score)`. -/
def getAdvancedVerdict (score : Nat) : Verdict :=
  if 70 ≤ score then .CONFIRMED_PHISHING
  else if 40 ≤ score then .SUSPICIOUS
  else .LEGITIMATE

/-- `getAdvancedThreatLevel(score)`. -/
def getAdvancedThreatLevel (score : Nat) : ThreatLevel :=
  if 65 ≤ score then .HIGH
  else if 35 ≤ score then .MEDIUM
  else .LOW

/-- The `isPhishing = riskScore >= 45` step of `analyzeURL`. -/
def isPhishingAt (score : Nat) : Bool :=
  45 ≤ score

/-- `calculateConfidence(features, certificate, brandAnalysis, score)`. -/
def calculateConfidence (f : Features) (c : Certificate) (b : BrandRes) (score : Nat) : Nat :=
  min 99
    (80 + (if f.tunnelService.isSome || b.brandImpersonation then 15 else 0) +
     (if c.isValid && f.usesHTTPS then 5 else 0) +
     (if 70 < score || score < 20 then 10 else 0))

/-- `generateRedFlags(analysis)`. -/
def generateRedFlags (infra : InfraResult) (vis : VisualResult) (html : HTMLResult)
    (f : Features) (b : BrandRes) : List String :=
  (match infra.tunnelService with
   | some t => ["Tunnel service detected: " ++ String.mk t]
   | none => []) ++
  (if vis.logoImpersonation then ["Brand impersonation detected"] else []) ++
  (if 0 < html.credentialForms then ["Credential harvesting forms present"] else []) ++
  (if f.obfuscatedJS then ["Obfuscated JavaScript detected"] else []) ++
  (if 0 < f.externalPostTargets.length then ["External data collection endpoints"] else []) ++
  (if b.uiCloning then ["UI cloning detected"] else [])

structure ThreatIntel where
  reportedTimes : Nat
  lastReported : String
  threatCategories : List String
  deriving DecidableEq, Repr

/-- `generateAdvancedRecommendations(...)`. -/
def generateAdvancedRecommendations (f : Features) (_isPhishing : Bool) (c : Certificate)
    (b : BrandRes) (t : ThreatIntel) (verdict : Verdict) : List String :=
  let recommendations :=
    (if verdict = .CONFIRMED_PHISHING then
      ["🚨 IMMEDIATE ACTION: Block domain and warn users",
       "🔒 DO NOT enter any personal information",
       "📞 Contact the legitimate organization directly"]
     else if verdict = .SUSPICIOUS then
      ["⚠️ PROCEED WITH EXTREME CAUTION",
       "🛡️ Multiple risk indicators detected"]
     else []) ++
    (match f.tunnelService with
     | some t => ["🌐 Tunnel service risk: " ++ String.mk t]
     | none => []) ++
    (if b.brandImpersonation then
      ["🎭 Suspected impersonation of " ++
        (match b.suspectedBrand with | some s => s | none => "null")]
     else []) ++
    (if !c.isValid then ["🛡️ Invalid SSL certificate - security risk"] else []) ++
    (if 0 < f.credentialForms then ["🔑 Credential harvesting forms detected"] else []) ++
    (if 5 < t.reportedTimes then
      ["⚠️ Reported " ++ toString t.reportedTimes ++ " times in threat databases"]
     else [])
  if recommendations.isEmpty then ["✅ Maintain standard security practices"]
  else recommendations

/-- All `Math.random()`-derived quantities of one `analyzeURL` run. -/
structure DrawsA where
  uiCloning : Bool
  credentialForms : Nat
  obfuscatedJS : Bool
  hiddenFields : Nat
  externalPost : Bool
  behavRedirect : Bool
  behavKeylogger : Bool
  behavCapture : Bool
  sandRequests : Bool
  sandMining : Bool
  sandExploit : Bool
  certValid : Bool
  issuer : String
  expiry : String
  trustHigh : Nat
  trustLow : Nat
  brand : String
  simHigh : Nat
  simLow : Nat
  reportedHigh : Nat
  reportedLow : Nat
  dateRecent : String
  dateOld : String
  categories : List String
  domainAge : String
  deriving DecidableEq, Repr

/-- The simulated `threatIntel` object. -/
def mkThreatIntel (isPhishing : Bool) (d : DrawsA) : ThreatIntel :=
  { reportedTimes := if isPhishing then d.reportedHigh else d.reportedLow
    lastReported := if isPhishing then d.dateRecent else d.dateOld
    threatCategories := if isPhishing then d.categories else [] }

structure AdvResult where
  url : Str
  isPhishing : Bool
  riskScore : Nat
  confidence : Nat
  features : Features
  certificate : Certificate
  brandAnalysis : BrandRes
  recommendations : List String
  threatIntel : ThreatIntel
  infrastructureFindings : List String
  visualFindings : List String
  htmlFindings : List String
  behavioralFindings : List String
  sandboxFindings : List String
  keyRedFlags : List String
  verdict : Verdict
  threatLevel : ThreatLevel
  deriving DecidableEq, Repr

/-- The body of `analyzeURL(urlToAnalyze)` after a successful `new URL` parse:
layers, features, certificate, brand analysis, score, verdict, threat level,
red flags, threat intel and recommendations. -/
def advAnalyzeCore (u : UrlObj) (urlStr : Str) (d : DrawsA) : AdvResult :=
  let infra := analyzeInfrastructure u.hostname
  let vis := analyzeVisuals u.hostname d.uiCloning
  let html := analyzeHTML d.credentialForms d.obfuscatedJS d.hiddenFields d.externalPost
  let behav := simulateBehavior d.behavRedirect d.behavKeylogger d.behavCapture
  let sand := executeSandbox d.sandRequests d.sandMining d.sandExploit
  let f := extractFeatures u urlStr infra html d.domainAge
  let c := mkCertificate f d.certValid d.issuer d.expiry d.trustHigh d.trustLow
  let b := mkBrandAnalysis f vis d.brand d.simHigh d.simLow
  let riskScore := calculateAdvancedRiskScore f c b
  let isPhishing := isPhishingAt riskScore
  let verdict := getAdvancedVerdict riskScore
  let threatIntel := mkThreatIntel isPhishing d
  { url := urlStr
    isPhishing
    riskScore
    confidence := calculateConfidence f c b riskScore
    features := f
    certificate := c
    brandAnalysis := b
    recommendations := generateAdvancedRecommendations f isPhishing c b threatIntel verdict
    threatIntel
    infrastructureFindings := infra.findings
    visualFindings := vis.findings
    htmlFindings := html.findings
    behavioralFindings := behav.findings
    sandboxFindings := sand.findings
    keyRedFlags := generateRedFlags infra vis html f b
    verdict
    threatLevel := getAdvancedThreatLevel riskScore }

/-- `analyzeURL` including the `new URL` parse (a parse failure is the caught
error path, `none`). -/
def advAnalyzeURL (urlStr : Str) (d : DrawsA) : Option AdvResult :=
  (parseUrl urlStr).map fun u => advAnalyzeCore u urlStr d

/-- The orchestration of `URLAnalyzer.handleSubmit` feeding `analyzeURL`: the
raw input is trimmed and scheme-normalised, and the analysis consumes the
normalised URL. -/
def analyzeFromInput (raw : Str) (d : DrawsA) : Option AdvResult :=
  advAnalyzeURL (normalizeUrl (jsTrim raw)) d

end Advanced

namespace Layered

/-! Embedding of the `CybersecurityAgent` multi-layer variant
(`src/unnamed/part_002`): six layer evaluators producing `LayerResult`s, a
weighted aggregation, thresholds and explanation/recommendation generators.
Layer weights are decimal fractions in the source (`0.25`, `0.15`, ...);
they are represented here in hundredths, so `calculateWeightedScore` yields
the score scaled by 100 and `phishingScoreOf` performs the
`Math.round(weightedScore)` of the orchestrator. -/

/-- Layer status enum. -/
inductive Status where
  | PASS
  | WARN
  | FAIL
  deriving DecidableEq, Repr

/-- Verdict enum of `getVerdict`. -/
inductive VerdictL where
  | LEGITIMATE
  | SUSPICIOUS
  | PHISHING
  deriving DecidableEq, Repr

/-- `LayerResult`; `weight` is in hundredths of the source's float. -/
structure LayerResult where
  score : Nat
  status : Status
  findings : List String
  weight : Nat
  deriving DecidableEq, Repr

/-- The suspicious-TLD denylist of Layer 1's regex
`/\.(tk|ml|ga|cf|bit|cc|pw|top|click|download)$/i`. -/
def tldList10 : List Str :=
  ["tk".toList, "ml".toList, "ga".toList, "cf".toList, "bit".toList,
   "cc".toList, "pw".toList, "top".toList, "click".toList, "download".toList]

/-- The typosquatting brand list of Layer 1. -/
def legitimateBrands6 : List Str :=
  ["google".toList, "facebook".toList, "amazon".toList, "microsoft".toList,
   "apple".toList, "paypal".toList]

/-- Layer 1: `analyzeUrlDomain(urlObj)`.  `domain` is the lower-cased
hostname and `href` the full URL string. -/
def analyzeUrlDomain (domain href : Str) : LayerResult :=
  let ipHit := isIPv4 domain
  let tldHit := tldList10.any fun t => strEnds domain ('.' :: t)
  let brandHits := legitimateBrands6.filter fun brand =>
    strHas domain brand && !strEnds domain (brand ++ ".com".toList)
  let subHit := 3 < (splitOnDot domain).length
  let redirHit := (strHas href "@".toList || strHas href "//".toList) &&
    8 < jsIndexOfCh href '@'
  let score :=
    (if ipHit then 40 else 0) + (if tldHit then 25 else 0) +
    30 * brandHits.length + (if subHit then 15 else 0) + (if redirHit then 35 else 0)
  { score := min 100 score
    status := if 40 ≤ score then .FAIL else if 20 ≤ score then .WARN else .PASS
    findings :=
      (if ipHit then ["🚨 Uses IP address instead of domain name (CRITICAL)"] else []) ++
      (if tldHit then ["⚠️ Suspicious top-level domain detected"] else []) ++
      (brandHits.map fun brand =>
        "🎭 Potential " ++ String.mk brand ++ " typosquatting detected") ++
      (if subHit then ["📍 Multiple subdomains detected"] else []) ++
      (if redirHit then ["🔴 Suspicious URL redirects detected"] else [])
    weight := 25 }

/-- The high-risk country list of Layer 2. -/
def suspiciousCountries : List Str :=
  ["russia".toList, "china".toList, "north korea".toList, "iran".toList]

/-- Layer 2: `analyzeIpGeoLocation(ip, country)`; `ipThreatDraw` determinizes
the simulated IP-reputation check. -/
def analyzeIpGeoLocation (ip country : Option Str) (ipThreatDraw : Bool) : LayerResult :=
  let geoHit := match country with
    | some ctry => suspiciousCountries.any fun c => strHas (toLowerL ctry) c
    | none => false
  let ipHit := ip.isSome && ipThreatDraw
  let score := (if geoHit then 20 else 0) + (if ipHit then 25 else 0)
  let findings :=
    (if geoHit then
      ["🌍 Hosted in high-risk country: " ++
        (match country with | some c => String.mk c | none => "")] else []) ++
    (if ipHit then ["🔍 IP address found in threat databases"] else [])
  { score := min 100 score
    status := if 30 ≤ score then .FAIL else if 15 ≤ score then .WARN else .PASS
    findings := if 0 < findings.length then findings
      else ["✅ No geo-location red flags detected"]
    weight := 15 }

/-- Layer 3: `analyzeSslSecurity(urlObj)`; `certDraw` determinizes the
simulated certificate validation (`Math.random() > 0.8`). -/
def analyzeSslSecurity (protocol : Str) (certDraw : Bool) : LayerResult :=
  let noHttps := protocol ≠ "https:".toList
  let score := (if noHttps then 30 else 0) + (if certDraw then 20 else 0)
  { score := min 100 score
    status := if 25 ≤ score then .FAIL else if 10 ≤ score then .WARN else .PASS
    findings :=
      (if noHttps then ["🔓 No HTTPS encryption - MAJOR RISK"]
       else ["🔒 HTTPS encryption detected"]) ++
      (if certDraw then ["⚠️ Self-signed or invalid SSL certificate"] else [])
    weight := 20 }

/-- Single-quote character (code 39). -/
def sqCh : Char := Char.ofNat 39

/-- Double-quote character (code 34). -/
def dqCh : Char := Char.ofNat 34

/-- Match of `<input[^>]*type=['"]ty['"][^>]*>` starting exactly at the head
of `s` (already lower-cased): after the literal `<input`, everything up to
the first `>` (which must exist, since `[^>]*` cannot cross it) must contain
`type='ty'` or `type="ty"`. -/
def inputTagAt (ty : Str) (s : Str) : Bool :=
  listHasPfx s ("<input".toList) &&
    (let rest := s.drop 6
     let seg := rest.takeWhile fun c => !(c == '>')
     (rest.any fun c => c == '>') &&
       (strHas seg ("type=".toList ++ [sqCh] ++ ty ++ [sqCh]) ||
        strHas seg ("type=".toList ++ [dqCh] ++ ty ++ [dqCh])))

/-- Unanchored, case-insensitive search for an `<input ... type='ty' ...>`
tag (the `/<input[^>]*type=['"]ty['"][^>]*>/i` tests of Layer 4). -/
def inputTagTest (ty : Str) (html : Str) : Bool :=
  go (toLowerL html)
where
  go : Str → Bool
    | [] => false
    | s@(_ :: rest) => inputTagAt ty s || go rest

/-- Layer 4: `analyzeHtmlContent(html)`. -/
def analyzeHtmlContent (html : Option Str) : LayerResult :=
  match html with
  | none =>
    { score := 0, status := .PASS,
      findings := ["ℹ️ No HTML content provided for analysis"], weight := 15 }
  | some h =>
    let pwHit := inputTagTest "password".toList h
    let obfHit := strHas (toLowerL h) "eval(".toList ||
      strHas (toLowerL h) "document.write(".toList || strHas (toLowerL h) "base64".toList
    let hiddenHit := inputTagTest "hidden".toList h
    let score := (if pwHit then 20 else 0) + (if obfHit then 25 else 0) +
      (if hiddenHit then 10 else 0)
    let findings :=
      (if pwHit then ["🔑 Password input fields detected"] else []) ++
      (if obfHit then ["⚠️ Potentially obfuscated JavaScript detected"] else []) ++
      (if hiddenHit then ["👁️ Hidden form fields present"] else [])
    { score := min 100 score
      status := if 30 ≤ score then .FAIL else if 15 ≤ score then .WARN else .PASS
      findings := if 0 < findings.length then findings
        else ["✅ No malicious HTML patterns detected"]
      weight := 15 }

/-- The impersonation keyword list of Layer 5. -/
def brandKeywords : List Str :=
  ["secure".toList, "verify".toList, "account".toList, "update".toList,
   "suspended".toList]

/-- Layer 5: `analyzeVisualBrand(domain)`; `visDraw` determinizes the
simulated visual-similarity check (`Math.random() > 0.6`). -/
def analyzeVisualBrand (domain : Str) (visDraw : Bool) : LayerResult :=
  let hits := brandKeywords.filter fun keyword => strHas (toLowerL domain) keyword
  let score := 15 * hits.length + (if visDraw then 30 else 0)
  let findings :=
    (hits.map fun keyword =>
      "🎯 Brand impersonation keyword: \"" ++ String.mk keyword ++ "\"") ++
    (if visDraw then ["🖼️ High visual similarity to legitimate brand detected"] else [])
  { score := min 100 score
    status := if 35 ≤ score then .FAIL else if 20 ≤ score then .WARN else .PASS
    findings := if 0 < findings.length then findings
      else ["✅ No brand impersonation detected"]
    weight := 15 }

/-- Layer 6: `analyzeThreatIntelligence(domain)`; `blDraw`/`mwDraw`
determinize the simulated blacklist and malware checks and `days` the
simulated domain age `Math.floor(Math.random() * 365)`. -/
def analyzeThreatIntelligence (_domain : Str) (blDraw mwDraw : Bool) (days : Nat) :
    LayerResult :=
  let ageHit := days < 30
  let score := (if blDraw then 40 else 0) + (if mwDraw then 25 else 0) +
    (if ageHit then 20 else 0)
  let findings :=
    (if blDraw then ["🚨 Domain found in phishing blacklists"] else []) ++
    (if mwDraw then ["⚠️ Recent malware activity associated with domain"] else []) ++
    (if ageHit then
      ["📅 Domain recently created (" ++ toString days ++ " days ago)"] else [])
  { score := min 100 score
    status := if 40 ≤ score then .FAIL else if 20 ≤ score then .WARN else .PASS
    findings := if 0 < findings.length then findings
      else ["✅ Clean threat intelligence reputation"]
    weight := 30 }

/-- The `layers` object, in insertion order. -/
structure Layers where
  urlDomain : LayerResult
  ipGeoLocation : LayerResult
  sslSecurity : LayerResult
  htmlAnalysis : LayerResult
  visualBrand : LayerResult
  threatIntel : LayerResult
  deriving DecidableEq, Repr

/-- `calculateWeightedScore(layers)`, scaled by 100: the sum of
`layer.score * layer.weight` with weights in hundredths. -/
def calculateWeightedScore (l : Layers) : Nat :=
  l.urlDomain.score * l.urlDomain.weight +
  l.ipGeoLocation.score * l.ipGeoLocation.weight +
  l.sslSecurity.score * l.sslSecurity.weight +
  l.htmlAnalysis.score * l.htmlAnalysis.weight +
  l.visualBrand.score * l.visualBrand.weight +
  l.threatIntel.score * l.threatIntel.weight

/-- `Math.round(weightedScore)`, the reported `phishingScore`
(round-half-up on the score scaled by 100). -/
def phishingScoreOf (l : Layers) : Nat :=
  (calculateWeightedScore l + 50) / 100

/-- `getVerdict(score)` on the scaled score (thresholds 70 and 40). -/
def getVerdict (centiScore : Nat) : VerdictL :=
  if 7000 ≤ centiScore then .PHISHING
  else if 4000 ≤ centiScore then .SUSPICIOUS
  else .LEGITIMATE

/-- `getThreatLevel(score)` on the scaled score (thresholds 60 and 30). -/
def getThreatLevel (centiScore : Nat) : Advanced.ThreatLevel :=
  if 6000 ≤ centiScore then .HIGH
  else if 3000 ≤ centiScore then .MEDIUM
  else .LOW

/-- One explanation entry of `generateExplanation`. -/
def explanationOf (layerName : String) (lr : LayerResult) : List String :=
  match lr.status with
  | .FAIL => ["❌ " ++ layerName ++ ": Critical security issues detected"]
  | .WARN => ["⚠️ " ++ layerName ++ ": Moderate concerns identified"]
  | .PASS => []

/-- `generateExplanation(layers)`: one line per FAIL/WARN layer, in
insertion order. -/
def generateExplanation (l : Layers) : List String :=
  explanationOf "urlDomain" l.urlDomain ++
  explanationOf "ipGeoLocation" l.ipGeoLocation ++
  explanationOf "sslSecurity" l.sslSecurity ++
  explanationOf "htmlAnalysis" l.htmlAnalysis ++
  explanationOf "visualBrand" l.visualBrand ++
  explanationOf "threatIntel" l.threatIntel

/-- `generateRecommendations(verdict, layers)`. -/
def generateRecommendations (verdict : VerdictL) (_l : Layers) : List String :=
  match verdict with
  | .PHISHING =>
    ["🚨 IMMEDIATE ACTION: Do NOT enter any credentials or personal information",
     "🔒 Close the website immediately and clear browser cache",
     "📞 Report this site to your IT security team"]
  | .SUSPICIOUS =>
    ["⚠️ Exercise extreme caution on this website",
     "🔍 Verify the website" ++ String.mk [Char.ofNat 39] ++
       "s authenticity through official channels",
     "🛡️ Avoid entering sensitive information"]
  | .LEGITIMATE =>
    ["✅ Website appears legitimate based on current analysis",
     "🔒 Continue with normal security precautions"]

/-- `calculateConfidence(layers)`. -/
def calculateConfidence (l : Layers) : Nat :=
  let analyzed := [l.urlDomain, l.ipGeoLocation, l.sslSecurity, l.htmlAnalysis,
    l.visualBrand, l.threatIntel].filter fun layer => 0 < layer.findings.length
  min 95 (70 + analyzed.length * 5)

/-- The `Math.random()`-derived quantities of one layered run. -/
structure DrawsL where
  ipThreat : Bool
  certInvalid : Bool
  visualSim : Bool
  blacklist : Bool
  malware : Bool
  days : Nat
  deriving DecidableEq, Repr

/-- The layer-evaluation block of `performLayeredAnalysis`: all six
evaluators applied to the parsed URL and the optional auxiliary inputs. -/
def mkLayers (u : UrlObj) (urlStr : Str) (ip country html : Option Str) (d : DrawsL) :
    Layers :=
  { urlDomain := analyzeUrlDomain u.hostname urlStr
    ipGeoLocation := analyzeIpGeoLocation ip country d.ipThreat
    sslSecurity := analyzeSslSecurity u.protocol d.certInvalid
    htmlAnalysis := analyzeHtmlContent html
    visualBrand := analyzeVisualBrand u.hostname d.visualSim
    threatIntel := analyzeThreatIntelligence u.hostname d.blacklist d.malware d.days }

end Layered

namespace Adv3

/-! Embedding of `calculateAdvancedScore` of the `AdvancedCybersecurityAgent`
variant (`src/unnamed/part_003`): the structures carry exactly the fields the
scorer consumes. -/

/-- IP-reputation classification of the infrastructure layer. -/
inductive Reputation where
  | CLEAN
  | SUSPICIOUS
  | MALICIOUS
  deriving DecidableEq, Repr

/-- Geolocation risk classification of the infrastructure layer. -/
inductive GeoRisk where
  | LOW
  | MEDIUM
  | HIGH
  deriving DecidableEq, Repr

structure InfraR where
  tunnelService : Option Str
  isDynamicDomain : Bool
  ipReputation : Reputation
  geoRisk : GeoRisk
  deriving DecidableEq, Repr

structure VisualR where
  logoImpersonation : Bool
  uiCloning : Bool
  deriving DecidableEq, Repr

structure HtmlR where
  credentialForms : Nat
  obfuscatedJS : Bool
  externalPostTargets : List String
  deriving DecidableEq, Repr

structure BehavR where
  dynamicRedirects : Bool
  javascriptBehavior : List String
  deriving DecidableEq, Repr

structure SandboxR where
  maliciousRequests : List String
  clientSideThreats : List String
  deriving DecidableEq, Repr

/-- `calculateAdvancedScore(analysis)`: fixed point-additions per triggered
rule over the five layer results, capped at 100. -/
def calculateAdvancedScore (i : InfraR) (v : VisualR) (h : HtmlR) (b : BehavR)
    (s : SandboxR) : Nat :=
  min 100
    ((if i.tunnelService.isSome then 40 else 0) +
     (if i.isDynamicDomain then 25 else 0) +
     (if i.ipReputation = .MALICIOUS then 35 else 0) +
     (if i.geoRisk = .HIGH then 20 else 0) +
     (if v.logoImpersonation then 35 else 0) +
     (if v.uiCloning then 30 else 0) +
     (if 0 < h.credentialForms then 25 else 0) +
     (if h.obfuscatedJS then 30 else 0) +
     (if 0 < h.externalPostTargets.length then 20 else 0) +
     (if b.dynamicRedirects then 25 else 0) +
     (if 0 < b.javascriptBehavior.length then 20 else 0) +
     (if 0 < s.maliciousRequests.length then 30 else 0) +
     (if 0 < s.clientSideThreats.length then 25 else 0))

end Adv3

namespace Detector0

/-! Embedding of the `PhishingDetector` variant (`src/unnamed/part_000`),
whose `checkForMimickedSites` additionally checks typosquat variations built
with JS `String.prototype.replace` (which replaces only the first occurrence
of the pattern and returns the string unchanged when the pattern is absent). -/

/-- The fixed site list of this variant's `checkForMimickedSites`. -/
def legitimateSites20 : List Str :=
  ["google".toList, "facebook".toList, "amazon".toList, "microsoft".toList,
   "apple".toList, "paypal".toList, "netflix".toList, "instagram".toList,
   "twitter".toList, "linkedin".toList, "ebay".toList, "yahoo".toList,
   "gmail".toList, "outlook".toList, "spotify".toList, "youtube".toList,
   "dropbox".toList, "adobe".toList, "salesforce".toList, "zoom".toList]

/-- JS `s.replace(c, r)` for single-character patterns: replaces the first
occurrence of `c` only, and leaves `s` unchanged when `c` is absent. -/
def jsReplaceChar (c r : Char) : Str → Str
  | [] => []
  | a :: as => if a == c then r :: as else a :: jsReplaceChar c r as

/-- The `variations` array of `checkForMimickedSites`. -/
def variationsOf (site : Str) : List Str :=
  [jsReplaceChar 'o' '0' site, jsReplaceChar 'e' '3' site,
   jsReplaceChar 'a' '@' site, jsReplaceChar 'i' '1' site,
   jsReplaceChar 'l' '1' site,
   site ++ "-".toList, "-".toList ++ site, site ++ "1".toList,
   "secure".toList ++ site, site ++ "secure".toList,
   "verify".toList ++ site, site ++ "verify".toList]

/-- `checkForMimickedSites(domain)` of `src/unnamed/part_000`: the direct
containment-without-own-suffix check, or containment of any variation. -/
def checkForMimickedSites (domain : Str) : Bool :=
  legitimateSites20.any fun site =>
    (strHas domain site && !strEnds domain (site ++ ".com".toList) &&
      !strEnds domain (site ++ ".net".toList) &&
      !strEnds domain (site ++ ".org".toList)) ||
    (variationsOf site).any fun variation => strHas domain variation

end Detector0

namespace SpecModel

/-- Modelled from the spec: no variant under `src/` derives a PASS/WARN/FAIL
status for the infrastructure evaluator (the `analyzeInfrastructure` results
carry no `status` field), so the status derivation is taken from §4.2 of the
spec: the layer scores `tunnelServiceName` present (+45),
`isDynamicDomainPattern` (+30), `hasIPAddressHost` (+35), `suspiciousTLD`
(+25), and status is FAIL at or above the fail-threshold (the spec's
"typically 35–40"; 40 is used here, the hardest to reach), WARN at or above
20, else PASS. -/
def infraScore (tunnel dyn ip tld : Bool) : Nat :=
  (if tunnel then 45 else 0) + (if dyn then 30 else 0) +
  (if ip then 35 else 0) + (if tld then 25 else 0)

/-- Modelled from the spec: status derivation for the infrastructure layer
(see `infraScore`). -/
def infraStatus (tunnel dyn ip tld : Bool) : Layered.Status :=
  if 40 ≤ infraScore tunnel dyn ip tld then .FAIL
  else if 20 ≤ infraScore tunnel dyn ip tld then .WARN
  else .PASS

end SpecModel

namespace Advanced

/-! The twelve scoring rules of `calculateAdvancedRiskScore`, as an explicit
rule set for the monotonicity claim. -/

/-- One rule per point-addition of `calculateAdvancedRiskScore`, in source
order. -/
inductive Rule where
  | tunnel
  | dynamicDomain
  | ipAddress
  | suspiciousTld
  | brandImp
  | uiClone
  | credForms
  | obfJS
  | extPost
  | certInvalid
  | noHttps
  | mimics
  deriving DecidableEq, Repr

/-- Whether a configuration triggers a rule: exactly the guard of the
corresponding point-addition in `calculateAdvancedRiskScore`. -/
def ruleTriggers (f : Features) (c : Certificate) (b : BrandRes) : Rule → Bool
  | .tunnel => f.tunnelService.isSome
  | .dynamicDomain => f.isDynamicDomain
  | .ipAddress => f.hasIPAddress
  | .suspiciousTld => f.suspiciousTLD
  | .brandImp => b.brandImpersonation
  | .uiClone => b.uiCloning
  | .credForms => 0 < f.credentialForms
  | .obfJS => f.obfuscatedJS
  | .extPost => 0 < f.externalPostTargets.length
  | .certInvalid => !c.isValid
  | .noHttps => !f.usesHTTPS
  | .mimics => f.mimicsKnownSites

/-- `calculateAdvancedRiskScore` as a function of the triggered-rule set
alone. -/
def scoreOfTriggers (t : Rule → Bool) : Nat :=
  min 100
    ((if t .tunnel then 45 else 0) +
     (if t .dynamicDomain then 30 else 0) +
     (if t .ipAddress then 35 else 0) +
     (if t .suspiciousTld then 25 else 0) +
     (if t .brandImp then 40 else 0) +
     (if t .uiClone then 35 else 0) +
     (if t .credForms then 30 else 0) +
     (if t .obfJS then 35 else 0) +
     (if t .extPost then 25 else 0) +
     (if t .certInvalid then 25 else 0) +
     (if t .noHttps then 20 else 0) +
     (if t .mimics then 30 else 0))

/-- An all-clean feature record (nothing triggered, HTTPS in use). -/
def cleanFeatures : Features :=
  { hasIPAddress := false, suspiciousTLD := false, suspiciousDomain := false,
    hasSubdomains := false, usesHTTPS := true, domainAge := "Unknown",
    urlLength := 19, hasSpecialChars := false, mimicsKnownSites := false,
    hasRedirect := false, containsSuspiciousKeywords := false,
    tunnelService := none, isDynamicDomain := false, credentialForms := 0,
    obfuscatedJS := false, hiddenFields := 0, externalPostTargets := [] }

/-- A valid certificate record. -/
def cleanCertificate : Certificate :=
  { isValid := true, issuer := "DigiCert", expiryDate := "2026-01-01", trustScore := 80 }

/-- An all-clean brand-analysis record. -/
def cleanBrand : BrandRes :=
  { suspectedBrand := none, logoSimilarity := 0, brandImpersonation := false,
    uiCloning := false }

/-- An all-false / all-zero resolution of the simulated draws. -/
def cleanDraws : DrawsA :=
  { uiCloning := false, credentialForms := 0, obfuscatedJS := false,
    hiddenFields := 0, externalPost := false, behavRedirect := false,
    behavKeylogger := false, behavCapture := false, sandRequests := false,
    sandMining := false, sandExploit := false, certValid := true,
    issuer := "DigiCert", expiry := "2026-01-01", trustHigh := 80, trustLow := 10,
    brand := "PayPal", simHigh := 85, simLow := 5, reportedHigh := 20,
    reportedLow := 1, dateRecent := "2025-10-01", dateOld := "2025-01-01",
    categories := ["Phishing"], domainAge := "Unknown" }

end Advanced

/-- The scenario URL of the spec's `paypal-secure-verify` test case. -/
def c6url : Str := "https://paypal-secure-verify.tk/account".toList

/-- The parsed `URL` object of `c6url`. -/
def c6obj : UrlObj :=
  { protocol := "https:".toList, hostname := "paypal-secure-verify.tk".toList,
    pathname := "/account".toList }

/-- A benign example URL object. -/
def exObj : UrlObj :=
  { protocol := "https:".toList, hostname := "example.com".toList,
    pathname := "/".toList }

/-- A benign example URL string. -/
def exUrl : Str := "https://example.com".toList

/-- The tunnel-host of the spec's tunnel scenario. -/
def c7host : Str := "abc123.ngrok.io".toList

/-- A feature record whose only triggered rule is the tunnel service. -/
def c7features : Advanced.Features :=
  { Advanced.cleanFeatures with tunnelService := some ("ngrok.io".toList) }

/-- A feature record whose only triggered rule is the suspicious TLD. -/
def tldFeatures : Advanced.Features :=
  { Advanced.cleanFeatures with suspiciousTLD := true }

/-- An all-false resolution of the layered variant's simulated draws, with a
domain age over 30 days. -/
def cleanDrawsL : Layered.DrawsL :=
  { ipThreat := false, certInvalid := false, visualSim := false,
    blacklist := false, malware := false, days := 100 }

/-! ## Helper lemmas -/

theorem ite_zero_le (b : Bool) (k : Nat) : (if b = true then k else 0) ≤ k := by
  split <;> omega

theorem ite_zero_mono (b1 b2 : Bool) (k : Nat) (h : b1 = true → b2 = true) :
    (if b1 = true then k else 0) ≤ (if b2 = true then k else 0) := by
  cases hb : b1 with
  | false => simp [hb]
  | true => simp [hb, h hb]

theorem if_isEmpty_ne {α : Type} (l f : List α) (hf : f ≠ []) :
    (if l.isEmpty then f else l) ≠ [] := by
  cases l <;> simp [hf]

theorem if_len_ne {α : Type} (l f : List α) (hf : f ≠ []) :
    (if 0 < l.length then l else f) ≠ [] := by
  cases l <;> simp [hf]

theorem calculateAdvancedRiskScore_eq_triggers (f : Advanced.Features)
    (c : Advanced.Certificate) (b : Advanced.BrandRes) :
    Advanced.calculateAdvancedRiskScore f c b =
      Advanced.scoreOfTriggers (Advanced.ruleTriggers f c b) := by
  simp only [Advanced.calculateAdvancedRiskScore, Advanced.scoreOfTriggers,
    Advanced.ruleTriggers, decide_eq_true_eq]

theorem scoreOfTriggers_mono (t1 t2 : Advanced.Rule → Bool)
    (h : ∀ r, t1 r = true → t2 r = true) :
    Advanced.scoreOfTriggers t1 ≤ Advanced.scoreOfTriggers t2 := by
  unfold Advanced.scoreOfTriggers
  have h1 := ite_zero_mono _ _ 45 (h .tunnel)
  have h2 := ite_zero_mono _ _ 30 (h .dynamicDomain)
  have h3 := ite_zero_mono _ _ 35 (h .ipAddress)
  have h4 := ite_zero_mono _ _ 25 (h .suspiciousTld)
  have h5 := ite_zero_mono _ _ 40 (h .brandImp)
  have h6 := ite_zero_mono _ _ 35 (h .uiClone)
  have h7 := ite_zero_mono _ _ 30 (h .credForms)
  have h8 := ite_zero_mono _ _ 35 (h .obfJS)
  have h9 := ite_zero_mono _ _ 25 (h .extPost)
  have h10 := ite_zero_mono _ _ 25 (h .certInvalid)
  have h11 := ite_zero_mono _ _ 20 (h .noHttps)
  have h12 := ite_zero_mono _ _ 30 (h .mimics)
  omega

theorem iteP_le (P : Prop) [Decidable P] (k : Nat) : (if P then k else 0) ≤ k := by
  split <;> omega

theorem ipGeo_score_le (ip country : Option Str) (d : Bool) :
    (Layered.analyzeIpGeoLocation ip country d).score ≤ 45 :=
  le_trans (Nat.min_le_right _ _) (Nat.add_le_add (iteP_le _ _) (iteP_le _ _))

theorem ssl_score_le (p : Str) (d : Bool) :
    (Layered.analyzeSslSecurity p d).score ≤ 50 :=
  le_trans (Nat.min_le_right _ _) (Nat.add_le_add (iteP_le _ _) (iteP_le _ _))

theorem html_score_le (h : Option Str) :
    (Layered.analyzeHtmlContent h).score ≤ 55 := by
  rcases h with _ | h
  · exact Nat.zero_le _
  · exact le_trans (Nat.min_le_right _ _)
      (Nat.add_le_add (Nat.add_le_add (iteP_le _ _) (iteP_le _ _)) (iteP_le _ _))

theorem ti_score_le (dom : Str) (b m : Bool) (days : Nat) :
    (Layered.analyzeThreatIntelligence dom b m days).score ≤ 85 :=
  le_trans (Nat.min_le_right _ _)
    (Nat.add_le_add (Nat.add_le_add (iteP_le _ _) (iteP_le _ _)) (iteP_le _ _))

theorem urlDomain_score_le (dom href : Str) :
    (Layered.analyzeUrlDomain dom href).score ≤ 100 :=
  Nat.min_le_left _ _

theorem visual_score_le (dom : Str) (d : Bool) :
    (Layered.analyzeVisualBrand dom d).score ≤ 100 :=
  Nat.min_le_left _ _

theorem urlDomain_weight (dom href : Str) :
    (Layered.analyzeUrlDomain dom href).weight = 25 := rfl

theorem ipGeo_weight (ip country : Option Str) (d : Bool) :
    (Layered.analyzeIpGeoLocation ip country d).weight = 15 := rfl

theorem ssl_weight (p : Str) (d : Bool) :
    (Layered.analyzeSslSecurity p d).weight = 20 := rfl

theorem html_weight (h : Option Str) :
    (Layered.analyzeHtmlContent h).weight = 15 := by
  rcases h with _ | h <;> rfl

theorem visual_weight (dom : Str) (d : Bool) :
    (Layered.analyzeVisualBrand dom d).weight = 15 := rfl

theorem ti_weight (dom : Str) (b m : Bool) (days : Nat) :
    (Layered.analyzeThreatIntelligence dom b m days).weight = 30 := rfl

theorem layered_phishingScore_le (u : UrlObj) (us : Str) (ip country html : Option Str)
    (d : Layered.DrawsL) :
    Layered.phishingScoreOf (Layered.mkLayers u us ip country html d) ≤ 100 := by
  have h1 := urlDomain_score_le u.hostname us
  have h2 := ipGeo_score_le ip country d.ipThreat
  have h3 := ssl_score_le u.protocol d.certInvalid
  have h4 := html_score_le html
  have h5 := visual_score_le u.hostname d.visualSim
  have h6 := ti_score_le u.hostname d.blacklist d.malware d.days
  unfold Layered.phishingScoreOf Layered.calculateWeightedScore Layered.mkLayers
  dsimp only
  rw [urlDomain_weight, ipGeo_weight, ssl_weight, html_weight, visual_weight, ti_weight]
  omega

/-- The features/certificate/brand arguments of `advAnalyzeCore` at the
`paypal-secure-verify` scenario URL. -/
def c6features (d : Advanced.DrawsA) : Advanced.Features :=
  Advanced.extractFeatures c6obj c6url (Advanced.analyzeInfrastructure c6obj.hostname)
    (Advanced.analyzeHTML d.credentialForms d.obfuscatedJS d.hiddenFields d.externalPost)
    d.domainAge

/-- The certificate argument of `advAnalyzeCore` at the scenario URL. -/
def c6cert (d : Advanced.DrawsA) : Advanced.Certificate :=
  Advanced.mkCertificate (c6features d) d.certValid d.issuer d.expiry d.trustHigh d.trustLow

/-- The brand-analysis argument of `advAnalyzeCore` at the scenario URL. -/
def c6brand (d : Advanced.DrawsA) : Advanced.BrandRes :=
  Advanced.mkBrandAnalysis (c6features d)
    (Advanced.analyzeVisuals c6obj.hostname d.uiCloning) d.brand d.simHigh d.simLow

/-- A configuration whose suspicious-TLD, brand-impersonation and
brand-mimicking rules all fire scores at least 70 and is classified
`CONFIRMED_PHISHING` / `HIGH`. -/
theorem verdict_high_of_triggers (f : Advanced.Features) (c : Advanced.Certificate)
    (b : Advanced.BrandRes) (h1 : f.suspiciousTLD = true) (h2 : b.brandImpersonation = true)
    (h3 : f.mimicsKnownSites = true) :
    70 ≤ Advanced.calculateAdvancedRiskScore f c b ∧
    Advanced.getAdvancedVerdict (Advanced.calculateAdvancedRiskScore f c b) = .CONFIRMED_PHISHING ∧
    Advanced.getAdvancedThreatLevel (Advanced.calculateAdvancedRiskScore f c b) = .HIGH := by
  have hs : 70 ≤ Advanced.calculateAdvancedRiskScore f c b := by
    unfold Advanced.calculateAdvancedRiskScore
    simp only [h1, h2, h3, if_true]
    omega
  refine ⟨hs, ?_, ?_⟩
  · unfold Advanced.getAdvancedVerdict
    rw [if_pos hs]
  · unfold Advanced.getAdvancedThreatLevel
    rw [if_pos (by omega : 65 ≤ Advanced.calculateAdvancedRiskScore f c b)]

/-! ## Claim theorems -/

/-- C1: for every input, the risk score lies between 0 and 100 inclusive
(scores are natural numbers, so 0 is a lower bound by type): this holds for
`calculateAdvancedRiskScore` and the full `analyzeURL` pipeline of the
advanced detector, for `calculateAdvancedScore` of the part_003 variant, and
for the weighted-sum aggregation `phishingScore` over the six layers whose
weights total 1.20 (the per-layer maxima keep the weighted sum at or below
90.5, so the rounded score never exceeds 100). -/
theorem c1_riskScore_in_range :
    (∀ f c b, Advanced.calculateAdvancedRiskScore f c b ≤ 100)
  ∧ (∀ u us d, (Advanced.advAnalyzeCore u us d).riskScore ≤ 100)
  ∧ (∀ i v h b s, Adv3.calculateAdvancedScore i v h b s ≤ 100)
  ∧ (∀ u us ip country html d,
      Layered.phishingScoreOf (Layered.mkLayers u us ip country html d) ≤ 100) :=
  ⟨fun _ _ _ => Nat.min_le_left _ _, fun _ _ _ => Nat.min_le_left _ _,
   fun _ _ _ _ _ => Nat.min_le_left _ _, layered_phishingScore_le⟩

/-- C3: `getAdvancedVerdict` and `getAdvancedThreatLevel` are pure functions
of the risk score with the thresholds 70/40 (verdict) and 65/35 (threat
level): `CONFIRMED_PHISHING` iff `70 ≤ s`, `SUSPICIOUS` iff `40 ≤ s < 70`,
else `LEGITIMATE`; `HIGH` iff `65 ≤ s`, `MEDIUM` iff `35 ≤ s < 65`, else
`LOW`. -/
theorem c3_verdict_threatLevel_thresholds (s : Nat) :
    (Advanced.getAdvancedVerdict s = .CONFIRMED_PHISHING ↔ 70 ≤ s)
  ∧ (Advanced.getAdvancedVerdict s = .SUSPICIOUS ↔ 40 ≤ s ∧ s < 70)
  ∧ (Advanced.getAdvancedVerdict s = .LEGITIMATE ↔ s < 40)
  ∧ (Advanced.getAdvancedThreatLevel s = .HIGH ↔ 65 ≤ s)
  ∧ (Advanced.getAdvancedThreatLevel s = .MEDIUM ↔ 35 ≤ s ∧ s < 65)
  ∧ (Advanced.getAdvancedThreatLevel s = .LOW ↔ s < 35) := by
  unfold Advanced.getAdvancedVerdict Advanced.getAdvancedThreatLevel
  refine ⟨?_, ?_, ?_, ?_, ?_, ?_⟩ <;> split_ifs <;> simp_all <;> omega

/-- C6: for the URL `https://paypal-secure-verify.tk/account` the feature
extraction yields `mimicsKnownSites = true` and `suspiciousTLD = true`, the
suspicious-keyword count is at least 2, and for every resolution `d` of the
simulated random signals the analysis verdict is `CONFIRMED_PHISHING` with
threat level `HIGH`. -/
theorem c6_paypal_scenario (d : Advanced.DrawsA) :
    (Advanced.advAnalyzeCore c6obj c6url d).features.mimicsKnownSites = true
  ∧ (Advanced.advAnalyzeCore c6obj c6url d).features.suspiciousTLD = true
  ∧ 2 ≤ Advanced.countSuspiciousKeywords (toLowerL c6url)
  ∧ (Advanced.advAnalyzeCore c6obj c6url d).verdict = .CONFIRMED_PHISHING
  ∧ (Advanced.advAnalyzeCore c6obj c6url d).threatLevel = .HIGH
  ∧ parseUrl c6url = some c6obj := by
  have hmk : Advanced.checkForMimickedSites c6obj.hostname = true := by decide
  have htld : (Advanced.suspiciousTLDs.any fun t => strEnds c6obj.hostname ('.' :: t)) = true := by
    decide
  have hv := verdict_high_of_triggers (c6features d) (c6cert d) (c6brand d)
    htld
    (by show (Advanced.checkForMimickedSites c6obj.hostname ||
          (Advanced.analyzeVisuals c6obj.hostname d.uiCloning).logoImpersonation) = true
        rw [hmk]
        exact Bool.true_or _)
    hmk
  refine ⟨hmk, htld, by decide, hv.2.1, hv.2.2, by decide⟩

/-- C10: `isPhishing` is true exactly when the risk score is at least 45;
a `SUSPICIOUS` verdict (thresholds 40/70) has `isPhishing = false` on
`[40,44]` and `isPhishing = true` on `[45,69]`, every `CONFIRMED_PHISHING`
result has `isPhishing = true`, and the pipeline's `isPhishing` field is
exactly this predicate of its risk score. -/
theorem c10_isPhishing_threshold (s : Nat) :
    (Advanced.isPhishingAt s = true ↔ 45 ≤ s)
  ∧ (Advanced.getAdvancedVerdict s = .CONFIRMED_PHISHING → Advanced.isPhishingAt s = true)
  ∧ (40 ≤ s → s ≤ 44 → Advanced.getAdvancedVerdict s = .SUSPICIOUS ∧ Advanced.isPhishingAt s = false)
  ∧ (45 ≤ s → s ≤ 69 → Advanced.getAdvancedVerdict s = .SUSPICIOUS ∧ Advanced.isPhishingAt s = true)
  ∧ (∀ u us d, (Advanced.advAnalyzeCore u us d).isPhishing =
      Advanced.isPhishingAt (Advanced.advAnalyzeCore u us d).riskScore) := by
  unfold Advanced.isPhishingAt Advanced.getAdvancedVerdict
  refine ⟨by simp, ?_, ?_, ?_, fun _ _ _ => rfl⟩ <;> split_ifs <;> simp_all <;> omega

/-- C10 witness: at risk score 42 the verdict is `SUSPICIOUS` while
`isPhishing` is false. -/
theorem c10_isPhishing_threshold_witness :
    Advanced.getAdvancedVerdict 42 = .SUSPICIOUS ∧ Advanced.isPhishingAt 42 = false :=
  (c10_isPhishing_threshold 42).2.2.1 (by norm_num) (by norm_num)

/-- C2 counterexample: the claim that the analysis result is a deterministic
function of the `AnalysisInput` alone (with external responses fixed) fails at
the concrete input `https://example.com`: two runs whose internal simulated
draws differ only in the UI-cloning draw produce different results. -/
theorem c2_counterexample :
    Advanced.advAnalyzeURL exUrl { Advanced.cleanDraws with uiCloning := true } ≠
    Advanced.advAnalyzeURL exUrl Advanced.cleanDraws := by decide

/-- C2 (amended): the analysis is a deterministic function of the input
together with the resolutions of the internal `Math.random()` draws — two
runs with identical input and identical draws give identical results — but
`analyzeVisuals` and `analyzeHTML` do generate findings from internal random
draws, so identical inputs with different draws can produce different
results. -/
theorem c2_determinism_given_draws :
    (∀ us d1 d2, d1 = d2 → Advanced.advAnalyzeURL us d1 = Advanced.advAnalyzeURL us d2)
  ∧ (Advanced.analyzeVisuals ("example.com".toList) true ≠
      Advanced.analyzeVisuals ("example.com".toList) false)
  ∧ (Advanced.analyzeHTML 1 false 0 false ≠ Advanced.analyzeHTML 0 false 0 false) :=
  ⟨fun _ _ _ h => by rw [h], by decide, by decide⟩

/-- C2 witness: the determinism-given-draws part at a concrete input. -/
theorem c2_determinism_given_draws_witness :
    Advanced.advAnalyzeURL exUrl Advanced.cleanDraws =
    Advanced.advAnalyzeURL exUrl Advanced.cleanDraws :=
  c2_determinism_given_draws.1 exUrl Advanced.cleanDraws Advanced.cleanDraws rfl

/-- C4: the risk score is monotone in the triggered rules.  For
`calculateAdvancedRiskScore`: if two feature/certificate/brand configurations
agree on every rule except one, which the second configuration additionally
triggers, the second score is at least the first.  For the weighted-sum
aggregation: raising any layer scores while keeping the weights fixed never
decreases the weighted score or the rounded `phishingScore`. -/
theorem c4_monotonicity :
    (∀ (f1 : Advanced.Features) (c1 : Advanced.Certificate) (b1 : Advanced.BrandRes)
       (f2 : Advanced.Features) (c2 : Advanced.Certificate) (b2 : Advanced.BrandRes)
       (r : Advanced.Rule),
       (∀ q, q ≠ r → Advanced.ruleTriggers f1 c1 b1 q = Advanced.ruleTriggers f2 c2 b2 q) →
       Advanced.ruleTriggers f1 c1 b1 r = false →
       Advanced.ruleTriggers f2 c2 b2 r = true →
       Advanced.calculateAdvancedRiskScore f1 c1 b1 ≤ Advanced.calculateAdvancedRiskScore f2 c2 b2)
  ∧ (∀ l1 l2 : Layered.Layers,
       l1.urlDomain.score ≤ l2.urlDomain.score →
       l1.ipGeoLocation.score ≤ l2.ipGeoLocation.score →
       l1.sslSecurity.score ≤ l2.sslSecurity.score →
       l1.htmlAnalysis.score ≤ l2.htmlAnalysis.score →
       l1.visualBrand.score ≤ l2.visualBrand.score →
       l1.threatIntel.score ≤ l2.threatIntel.score →
       l1.urlDomain.weight = l2.urlDomain.weight →
       l1.ipGeoLocation.weight = l2.ipGeoLocation.weight →
       l1.sslSecurity.weight = l2.sslSecurity.weight →
       l1.htmlAnalysis.weight = l2.htmlAnalysis.weight →
       l1.visualBrand.weight = l2.visualBrand.weight →
       l1.threatIntel.weight = l2.threatIntel.weight →
       Layered.calculateWeightedScore l1 ≤ Layered.calculateWeightedScore l2 ∧
       Layered.phishingScoreOf l1 ≤ Layered.phishingScoreOf l2) := by
  constructor
  · intro f1 c1 b1 f2 c2 b2 r hagree hfalse htrue
    rw [calculateAdvancedRiskScore_eq_triggers, calculateAdvancedRiskScore_eq_triggers]
    apply scoreOfTriggers_mono
    intro q hq
    by_cases hqr : q = r
    · subst hqr
      rw [hq] at hfalse
      exact absurd hfalse (by simp)
    · rw [← hagree q hqr]
      exact hq
  · intro l1 l2 hs1 hs2 hs3 hs4 hs5 hs6 hw1 hw2 hw3 hw4 hw5 hw6
    have hW : Layered.calculateWeightedScore l1 ≤ Layered.calculateWeightedScore l2 := by
      unfold Layered.calculateWeightedScore
      rw [hw1, hw2, hw3, hw4, hw5, hw6]
      exact Nat.add_le_add (Nat.add_le_add (Nat.add_le_add (Nat.add_le_add (Nat.add_le_add
        (Nat.mul_le_mul_right _ hs1) (Nat.mul_le_mul_right _ hs2))
        (Nat.mul_le_mul_right _ hs3)) (Nat.mul_le_mul_right _ hs4))
        (Nat.mul_le_mul_right _ hs5)) (Nat.mul_le_mul_right _ hs6)
    exact ⟨hW, Nat.div_le_div_right (by omega)⟩

/-- C4 witness: additionally triggering the suspicious-TLD rule on an
otherwise clean configuration does not decrease the score. -/
theorem c4_monotonicity_witness :
    Advanced.calculateAdvancedRiskScore Advanced.cleanFeatures Advanced.cleanCertificate
      Advanced.cleanBrand ≤
    Advanced.calculateAdvancedRiskScore tldFeatures Advanced.cleanCertificate
      Advanced.cleanBrand :=
  c4_monotonicity.1 _ _ _ _ _ _ Advanced.Rule.suspiciousTld
    (by intro q hq
        cases q <;> first | rfl | exact absurd rfl hq)
    (by decide) (by decide)

set_option maxRecDepth 40000 in
/-- C5 counterexample: at the clean input `https://example.com/` the
`urlDomain` layer findings, the explanation list and the key red-flags list
are all empty — the claim that they are never empty fails. -/
theorem c5_counterexample :
    (Layered.analyzeUrlDomain ("example.com".toList) ("https://example.com/".toList)).findings = []
  ∧ Layered.generateExplanation
      (Layered.mkLayers exObj ("https://example.com/".toList) none none none cleanDrawsL) = []
  ∧ (Advanced.advAnalyzeCore exObj exUrl Advanced.cleanDraws).keyRedFlags = [] :=
  ⟨by decide, by decide, by decide⟩

/-- C5 (amended): the recommendations lists are never empty, and every layer
evaluator except `analyzeUrlDomain` emits at least one finding (a clean line
when no rule triggers); but the `urlDomain` layer findings, the red-flags
list and the explanation list may be empty when nothing triggers. -/
theorem c5_amended_nonempty :
    (∀ ip country dr, (Layered.analyzeIpGeoLocation ip country dr).findings ≠ [])
  ∧ (∀ p dr, (Layered.analyzeSslSecurity p dr).findings ≠ [])
  ∧ (∀ h, (Layered.analyzeHtmlContent h).findings ≠ [])
  ∧ (∀ dom dr, (Layered.analyzeVisualBrand dom dr).findings ≠ [])
  ∧ (∀ dom b m days, (Layered.analyzeThreatIntelligence dom b m days).findings ≠ [])
  ∧ (∀ v l, Layered.generateRecommendations v l ≠ [])
  ∧ (∀ f ip c b t v, Advanced.generateAdvancedRecommendations f ip c b t v ≠ [])
  ∧ (∀ dom, (Advanced.analyzeInfrastructure dom).findings ≠ [])
  ∧ (∀ dom dr, (Advanced.analyzeVisuals dom dr).findings ≠ [])
  ∧ (∀ cd od hd ed, (Advanced.analyzeHTML cd od hd ed).findings ≠ [])
  ∧ (∀ d1 d2 d3, (Advanced.simulateBehavior d1 d2 d3).findings ≠ [])
  ∧ (∀ d1 d2 d3, (Advanced.executeSandbox d1 d2 d3).findings ≠ []) := by
  refine ⟨fun ip country dr => if_len_ne _ _ (List.cons_ne_nil _ _),
    fun p dr => ?_,
    fun h => ?_,
    fun dom dr => if_len_ne _ _ (List.cons_ne_nil _ _),
    fun dom b m days => if_len_ne _ _ (List.cons_ne_nil _ _),
    fun v l => ?_,
    fun f ip c b t v => if_isEmpty_ne _ _ (List.cons_ne_nil _ _),
    fun dom => ?_,
    fun dom dr => ?_,
    fun cd od hd ed => if_isEmpty_ne _ _ (List.cons_ne_nil _ _),
    fun d1 d2 d3 => if_isEmpty_ne _ _ (List.cons_ne_nil _ _),
    fun d1 d2 d3 => if_isEmpty_ne _ _ (List.cons_ne_nil _ _)⟩
  · unfold Layered.analyzeSslSecurity
    dsimp only
    split_ifs <;> simp
  · rcases h with _ | h
    · simp [Layered.analyzeHtmlContent]
    · exact if_len_ne _ _ (List.cons_ne_nil _ _)
  · cases v <;> simp [Layered.generateRecommendations]
  · unfold Advanced.analyzeInfrastructure
    dsimp only
    rcases hf : Advanced.tunnelServices.find? (fun s => strHas dom s) with _ | t <;>
      (simp [hf]; try tauto)
  · unfold Advanced.analyzeVisuals
    dsimp only
    split_ifs <;> simp_all

/-- With the tunnel rule triggered the spec-modelled infrastructure status is
FAIL regardless of the other infrastructure features. -/
theorem infraStatus_tunnel (d i t : Bool) : SpecModel.infraStatus true d i t = .FAIL := by
  unfold SpecModel.infraStatus SpecModel.infraScore
  split_ifs <;> first | rfl | omega | simp_all

/-- C7: for every host containing an entry of the fixed tunnel-provider
denylist, `analyzeInfrastructure` sets `tunnelService` non-null; a feature
record carrying that tunnel feature scores at least 45 in
`calculateAdvancedRiskScore` regardless of every other feature, and the
spec-modelled infrastructure layer status is FAIL regardless of the other
infrastructure features. -/
theorem c7_tunnel_scenario (host : Str) (f : Advanced.Features) (c : Advanced.Certificate)
    (b : Advanced.BrandRes)
    (hhost : ∃ e ∈ Advanced.tunnelServices, strHas host e = true)
    (hf : f.tunnelService = (Advanced.analyzeInfrastructure host).tunnelService) :
    (Advanced.analyzeInfrastructure host).tunnelService ≠ none
  ∧ f.tunnelService.isSome = true
  ∧ 45 ≤ Advanced.calculateAdvancedRiskScore f c b
  ∧ SpecModel.infraStatus f.tunnelService.isSome f.isDynamicDomain f.hasIPAddress
      f.suspiciousTLD = .FAIL := by
  have ht : (Advanced.analyzeInfrastructure host).tunnelService.isSome = true := by
    show ((Advanced.tunnelServices.find? fun s => strHas host s)).isSome = true
    rw [List.find?_isSome]
    exact hhost
  have hsome : f.tunnelService.isSome = true := by rw [hf]; exact ht
  refine ⟨?_, hsome, ?_, ?_⟩
  · intro hnone
    rw [hnone] at ht
    simp at ht
  · unfold Advanced.calculateAdvancedRiskScore
    rw [hsome]
    simp only [if_true]
    omega
  · rw [hsome]
    exact infraStatus_tunnel _ _ _

/-- C7 witness: the scenario host `abc123.ngrok.io`. -/
theorem c7_tunnel_scenario_witness :
    (Advanced.analyzeInfrastructure c7host).tunnelService ≠ none
  ∧ c7features.tunnelService.isSome = true
  ∧ 45 ≤ Advanced.calculateAdvancedRiskScore c7features Advanced.cleanCertificate
      Advanced.cleanBrand
  ∧ SpecModel.infraStatus c7features.tunnelService.isSome c7features.isDynamicDomain
      c7features.hasIPAddress c7features.suspiciousTLD = .FAIL :=
  c7_tunnel_scenario c7host c7features Advanced.cleanCertificate Advanced.cleanBrand
    ⟨"ngrok.io".toList, by decide, by decide⟩ (by decide)

/-- C8: evaluation of `checkForMimickedSites` of `src/unnamed/part_000` at
hosts ending in a brand's own domain.  Because JS `replace` leaves the brand
token unchanged when the substituted character is absent (`jsReplaceChar 'o'
'0' "apple" = "apple"`), the "typosquat variation" check matches the plain
brand token, so `www.apple.com` and `www.google.com` are flagged as mimicking
— contradicting the claimed (and spec-intended) exemption of hosts ending in
the brand's own domain; the simpler variant without variations returns false
on `www.google.com`. -/
theorem c8_code_eval :
    Detector0.checkForMimickedSites ("www.apple.com".toList) = true
  ∧ Detector0.checkForMimickedSites ("www.google.com".toList) = true
  ∧ Advanced.checkForMimickedSites ("www.google.com".toList) = false
  ∧ Detector0.jsReplaceChar 'o' '0' ("apple".toList) = "apple".toList :=
  ⟨by decide, by decide, by decide, by decide⟩

/-- C9: an input lacking an `http://`/`https://` scheme is normalised by
prefixing `https://`; the normalised form of `example.com` parses without
error, and the analysis pipeline consumes the normalised URL (its result is
the core analysis of the parsed, normalised URL). -/
theorem c9_normalization :
    (∀ s, listHasPfx s ("http://".toList) = false → listHasPfx s ("https://".toList) = false →
      normalizeUrl s = "https://".toList ++ s)
  ∧ parseUrl (normalizeUrl (jsTrim ("example.com".toList))) = some exObj
  ∧ (∀ d, Advanced.analyzeFromInput ("example.com".toList) d =
      some (Advanced.advAnalyzeCore exObj exUrl d)) := by
  refine ⟨?_, by decide, fun d => rfl⟩
  intro s h1 h2
  unfold normalizeUrl
  rw [h1, h2]
  simp

/-- C9 witness: `example.com` is normalised to `https://example.com`. -/
theorem c9_normalization_witness :
    normalizeUrl ("example.com".toList) = "https://".toList ++ "example.com".toList :=
  c9_normalization.1 _ (by decide) (by decide)
